import Mathlib

/-!
Verification of `hack/check-trivy.py`, a single-shot CI check that
cross-references a local `.trivyignore` CVE list against the Debian
security-tracker JSON dataset.

The script is embedded shallowly:

* `read_trivy_filter` mirrors the ignore-list reader (line trimming,
  `CVE` prefix filter, first-occurrence deduplication);
* `retrieve_debian_data` mirrors the single network fetch (non-200
  responses yield `none` plus a printed error naming the URL);
* `processCve` mirrors the body of the nested classification loop,
  including the `KeyError` handling for a missing `releases` or
  `status` field;
* `runMain` mirrors the `__main__` block: read the file, fetch the
  dataset, classify, and compute the exit status.

Python dicts preserve insertion order, so the dataset is modelled as an
association list `package → (cve → record)`; `dist in releases` becomes
`List.lookup`, `list.remove` becomes `List.erase` (both drop the first
occurrence only).
-/

namespace CheckTrivy

/-- The fixed remote authority address (`DEBIAN_URL` in the script). -/
def DEBIAN_URL : String := "https://security-tracker.debian.org/tracker/data/json"

/-- A per-release record: `status` is `none` when the `"status"` key is
absent (Python raises `KeyError`, caught by the loop). -/
structure Release where
  status : Option String
deriving Repr, DecidableEq

/-- A vulnerability record: `releases` is `none` when the `"releases"` key
is absent (Python raises `KeyError`, caught by the loop); otherwise an
insertion-ordered association list `release name → Release`. -/
structure Record where
  releases : Option (List (String × Release))
deriving Repr, DecidableEq

/-- The remote dataset: insertion-ordered association list
`package name → (cve id → Record)`. -/
abbrev Dataset := List (String × List (String × Record))

/-- One log line emitted by the script, by constructor:
`distNotIn d p` = `logger.info("{d} is not in {p}")`;
`resolvedWarn c` = `logger.warning("{c} has been resolved")`;
`foundNotResolved c` = `logger.debug("{c} has been found but it is not resolved")`;
`statusNotFound c` = `logger.warning("Status for {c} has not been found")`;
`notFoundError l` = `logger.error("These CVE has not been found: {l}")`. -/
inductive LogEntry where
  | distNotIn (distribution pkg : String)
  | resolvedWarn (cve : String)
  | foundNotResolved (cve : String)
  | statusNotFound (cve : String)
  | notFoundError (cves : List String)
deriving Repr, DecidableEq

/-- `retrieve_debian_data`: the single network request.  The response
status and (already-parsed) body are inputs; a non-200 status prints an
error naming `DEBIAN_URL` and returns `None`. -/
def retrieve_debian_data (respStatus : Nat) (respBody : Dataset) :
    Option Dataset × List String :=
  if respStatus ≠ 200 then
    (none, ["Error while retrieving the data from " ++ DEBIAN_URL])
  else
    (some respBody, [])

/-- Python's `str.strip()`: drop leading and trailing whitespace,
modelled over the string's character list. -/
def pyStrip (s : String) : String :=
  ⟨(((s.data.dropWhile Char.isWhitespace).reverse.dropWhile
      Char.isWhitespace).reverse)⟩

/-- Python's `str.startswith(pre)`, modelled over character lists. -/
def pyStartsWith (s pre : String) : Bool :=
  pre.data.isPrefixOf s.data

/-- One iteration of the `read_trivy_filter` loop: skip the line unless
its stripped form starts with `"CVE"` and is not already present. -/
def rtfStep (acc : List String) (line : String) : List String :=
  if ¬ pyStartsWith (pyStrip line) "CVE" then acc
  else if pyStrip line ∈ acc then acc
  else acc ++ [pyStrip line]

/-- `read_trivy_filter`: keep each line that, after stripping, starts with
`"CVE"`, skipping lines whose stripped form is already present. -/
def read_trivy_filter (lines : List String) : List String :=
  lines.foldl rtfStep []

/-- The mutable state of the classification loop: the `resolved` flag, the
working ignore list `ignored_cves`, and the log emitted so far. -/
structure CheckState where
  resolved : Bool
  ignored : List String
  log : List LogEntry
deriving Repr, DecidableEq

/-- Initial loop state: `resolved = False`, the ignore list as read, and
an empty log. -/
def initState (ignored : List String) : CheckState :=
  { resolved := false, ignored := ignored, log := [] }

/-- The status the loop reads for a record and target distribution:
`rec["releases"][dist]["status"]`, with `none` for any of the three ways
the lookup can fail (no `releases` key, distribution absent, no `status`
key). -/
def statusOf (dist : String) (rec : Record) : Option String :=
  match rec.releases with
  | none => none
  | some rels =>
    match rels.lookup dist with
    | none => none
    | some rel => rel.status

/-- The body of the inner loop for one dataset occurrence `(pkg, cve, rec)`:
membership test against the working ignore list, the `releases` /
distribution / `status` lookups with their log lines, and removal of the
cve exactly when a status value was read. -/
def processCve (dist pkg : String) (st : CheckState) (cve : String)
    (rec : Record) : CheckState :=
  if cve ∈ st.ignored then
    match rec.releases with
    | none =>
      { st with log := st.log ++ [.statusNotFound cve] }
    | some rels =>
      match rels.lookup dist with
      | none =>
        { st with log := st.log ++ [.distNotIn dist pkg] }
      | some rel =>
        match rel.status with
        | none =>
          { st with log := st.log ++ [.statusNotFound cve] }
        | some s =>
          if s = "resolved" then
            { resolved := true, ignored := st.ignored.erase cve,
              log := st.log ++ [.resolvedWarn cve] }
          else
            { st with ignored := st.ignored.erase cve,
                      log := st.log ++ [.foundNotResolved cve] }
  else st

/-- The nested classification loops:
`for package in all_cves: for cve in all_cves[package]: ...`. -/
def classify (dist : String) (ds : Dataset) (st : CheckState) : CheckState :=
  ds.foldl (fun st p => p.2.foldl (fun st e => processCve dist p.1 st e.1 e.2) st) st

/-- The dataset flattened to its iteration order: the list of
`(package, cve, record)` occurrences the nested loops visit. -/
def occsOf (ds : Dataset) : List (String × String × Record) :=
  ds.flatMap (fun p => p.2.map (fun e => (p.1, e.1, e.2)))

/-- The classification loop expressed over the flattened occurrence list. -/
def foldOccs (dist : String) (st : CheckState)
    (occs : List (String × String × Record)) : CheckState :=
  occs.foldl (fun st o => processCve dist o.1 st o.2.1 o.2.2) st

/-- The inputs a run depends on: the local ignore file (`none` models a
missing/unreadable file, which raises an uncaught Python exception), the
response status and body of the single fetch, and `--distribution`. -/
structure RunInput where
  fileContent : Option (List String)
  respStatus : Nat
  respBody : Dataset
  distribution : String
deriving Repr, DecidableEq

/-- Everything observable about a run: exit code, whether the network
request was issued, the lines printed by `print`, and the final
`resolved` flag, working ignore list and log. -/
structure RunResult where
  exitCode : Nat
  networkAttempted : Bool
  printed : List String
  resolved : Bool
  ignoredFinal : List String
  log : List LogEntry
deriving Repr, DecidableEq

/-- The `__main__` block: read the ignore file (aborting with a nonzero
exit, before any network activity, if it is unreadable), fetch the
dataset (exiting 1 on failure without classification), run the
classification loops, then compute the verdict:
`resolved` → exit 1; non-empty remaining ignore list → error log and
exit 1; otherwise fall off the end with exit 0. -/
def runMain (inp : RunInput) : RunResult :=
  match inp.fileContent with
  | none =>
    { exitCode := 1, networkAttempted := false, printed := [],
      resolved := false, ignoredFinal := [], log := [] }
  | some lines =>
    let ignored := read_trivy_filter lines
    match retrieve_debian_data inp.respStatus inp.respBody with
    | (none, printed) =>
      { exitCode := 1, networkAttempted := true, printed := printed,
        resolved := false, ignoredFinal := ignored, log := [] }
    | (some ds, printed) =>
      let st := classify inp.distribution ds (initState ignored)
      if st.resolved then
        { exitCode := 1, networkAttempted := true, printed := printed,
          resolved := st.resolved, ignoredFinal := st.ignored, log := st.log }
      else if st.ignored.length ≠ 0 then
        { exitCode := 1, networkAttempted := true, printed := printed,
          resolved := st.resolved, ignoredFinal := st.ignored,
          log := st.log ++ [.notFoundError st.ignored] }
      else
        { exitCode := 0, networkAttempted := true, printed := printed,
          resolved := st.resolved, ignoredFinal := st.ignored, log := st.log }

/-- The three final states an ignore entry can be in after a run:
never matched (still in the working list), matched and resolved, or
matched and still unresolved — each identified by the final working list
and the log. -/
def neverMatched (cve : String) (ignoredFinal : List String)
    (_log : List LogEntry) : Prop :=
  cve ∈ ignoredFinal

/-- Matched and still unresolved: removed from the working list with the
debug line logged. -/
def matchedUnresolved (cve : String) (ignoredFinal : List String)
    (log : List LogEntry) : Prop :=
  cve ∉ ignoredFinal ∧ LogEntry.foundNotResolved cve ∈ log

/-- Matched but resolved: removed from the working list with the
resolution warning logged. -/
def matchedResolved (cve : String) (ignoredFinal : List String)
    (log : List LogEntry) : Prop :=
  cve ∉ ignoredFinal ∧ LogEntry.resolvedWarn cve ∈ log

/-- The loop invariant behind the three-state classification: a tracked
cve is either still in the working list with neither classification line
logged, or out of it with exactly one of the two classification lines
logged. -/
def triState (cve : String) (st : CheckState) : Prop :=
  (cve ∈ st.ignored ∧ LogEntry.resolvedWarn cve ∉ st.log ∧
    LogEntry.foundNotResolved cve ∉ st.log) ∨
  (cve ∉ st.ignored ∧ LogEntry.resolvedWarn cve ∈ st.log ∧
    LogEntry.foundNotResolved cve ∉ st.log) ∨
  (cve ∉ st.ignored ∧ LogEntry.resolvedWarn cve ∉ st.log ∧
    LogEntry.foundNotResolved cve ∈ st.log)

/-! ### Concrete inputs used to witness the theorems -/

/-- A one-entry ignore file. -/
def exLines : List String := ["CVE-1"]

/-- A record whose `bullseye` status is `"open"`. -/
def recOpen : Record := ⟨some [("bullseye", ⟨some "open"⟩)]⟩

/-- A record whose `bullseye` status is `"resolved"`. -/
def recResolved : Record := ⟨some [("bullseye", ⟨some "resolved"⟩)]⟩

/-- A record with a `releases` map that lacks `bullseye`. -/
def recNoDist : Record := ⟨some [("buster", ⟨some "open"⟩)]⟩

/-- A record whose `bullseye` release entry lacks the `status` field. -/
def recNoStatus : Record := ⟨some [("bullseye", ⟨none⟩)]⟩

/-- A dataset where `CVE-1` appears under two packages: first with an
`"open"` status, then with a `"resolved"` one. -/
def dsOpenThenResolved : Dataset :=
  [("p1", [("CVE-1", recOpen)]), ("p2", [("CVE-1", recResolved)])]

/-- A dataset where `CVE-1` appears under two packages: first without
the target distribution, then with an `"open"` status. -/
def dsNoDistThenOpen : Dataset :=
  [("p1", [("CVE-1", recNoDist)]), ("p2", [("CVE-1", recOpen)])]

/-- A dataset where `CVE-1` appears under two packages: first without
the target distribution, then with a `"resolved"` status. -/
def dsNoDistThenResolved : Dataset :=
  [("p1", [("CVE-1", recNoDist)]), ("p2", [("CVE-1", recResolved)])]

/-- The classification state at the end of the loops, for a run whose
ignore file held `lines` and whose fetch returned `ds`. -/
def finalState (lines : List String) (ds : Dataset) (dist : String) :
    CheckState :=
  classify dist ds (initState (read_trivy_filter lines))

/-- A dataset with a single `"open"` occurrence of `CVE-1`. -/
def dsOpen : Dataset := [("p1", [("CVE-1", recOpen)])]

/-- A dataset with a single `"resolved"` occurrence of `CVE-1`. -/
def dsResolved : Dataset := [("p1", [("CVE-1", recResolved)])]

/-- A dataset whose single `CVE-1` record lacks the target
distribution. -/
def dsNoDist : Dataset := [("p1", [("CVE-1", recNoDist)])]

/-- A dataset whose single `CVE-1` release entry lacks the `status`
field. -/
def dsNoStatus : Dataset := [("p1", [("CVE-1", recNoStatus)])]

/-! ### Step lemmas about `processCve` -/

/-- A cve not in the working ignore list is skipped entirely. -/
lemma processCve_not_mem {st : CheckState} {cve : String}
    (dist pkg : String) (rec : Record) (h : cve ∉ st.ignored) :
    processCve dist pkg st cve rec = st := by
  simp [processCve, h]

/-- When `rec` yields no status (no `releases`, distribution absent, or no
`status` field), the step changes neither the `resolved` flag nor the
working ignore list; it only appends log lines. -/
lemma processCve_statusNone {st : CheckState} {cve dist : String}
    {rec : Record} (pkg : String) (hst : statusOf dist rec = none) :
    (processCve dist pkg st cve rec).resolved = st.resolved ∧
    (processCve dist pkg st cve rec).ignored = st.ignored ∧
    ∃ t, (processCve dist pkg st cve rec).log = st.log ++ t ∧
      ∀ x ∈ t, x = LogEntry.statusNotFound cve ∨ x = LogEntry.distNotIn dist pkg := by
  by_cases hmem : cve ∈ st.ignored
  · cases hrel : rec.releases with
    | none => refine ⟨?_, ?_, [.statusNotFound cve], ?_, ?_⟩ <;>
        simp [processCve, hmem, hrel]
    | some rels =>
      cases hlk : rels.lookup dist with
      | none => refine ⟨?_, ?_, [.distNotIn dist pkg], ?_, ?_⟩ <;>
          simp [processCve, hmem, hrel, hlk]
      | some rel =>
        simp only [statusOf, hrel, hlk] at hst
        refine ⟨?_, ?_, [.statusNotFound cve], ?_, ?_⟩ <;>
          simp [processCve, hmem, hrel, hlk, hst]
  · refine ⟨?_, ?_, [], ?_, ?_⟩ <;> simp [processCve, hmem]

/-- The step for a tracked cve whose record has a `releases` map without
the target distribution: only the informational note is logged. -/
lemma processCve_distAbsent {st : CheckState} {cve dist : String}
    {rec : Record} {rels : List (String × Release)} (pkg : String)
    (hmem : cve ∈ st.ignored) (hrel : rec.releases = some rels)
    (hlk : rels.lookup dist = none) :
    processCve dist pkg st cve rec =
      { st with log := st.log ++ [.distNotIn dist pkg] } := by
  simp [processCve, hmem, hrel, hlk]

/-- The step for a tracked cve whose record lacks the `releases` key:
only the `statusNotFound` warning is logged. -/
lemma processCve_noReleases {st : CheckState} {cve : String} {rec : Record}
    (dist pkg : String) (hmem : cve ∈ st.ignored)
    (hrel : rec.releases = none) :
    processCve dist pkg st cve rec =
      { st with log := st.log ++ [.statusNotFound cve] } := by
  simp [processCve, hmem, hrel]

/-- The step for a tracked cve whose release entry for the target
distribution lacks the `status` field: only the `statusNotFound` warning
is logged. -/
lemma processCve_statusMissing {st : CheckState} {cve dist : String}
    {rec : Record} {rels : List (String × Release)} {rel : Release}
    (pkg : String) (hmem : cve ∈ st.ignored)
    (hrel : rec.releases = some rels) (hlk : rels.lookup dist = some rel)
    (hs : rel.status = none) :
    processCve dist pkg st cve rec =
      { st with log := st.log ++ [.statusNotFound cve] } := by
  simp [processCve, hmem, hrel, hlk, hs]

/-- Steps preserve the no-duplicates property of the working ignore
list. -/
lemma processCve_nodup (dist pkg : String) (st : CheckState) (cve : String)
    (rec : Record) (h : st.ignored.Nodup) :
    (processCve dist pkg st cve rec).ignored.Nodup := by
  unfold processCve
  split
  · split
    · simpa using h
    · split
      · simpa using h
      · split
        · simpa using h
        · split <;> simpa using h.erase cve
  · exact h

/-- When `rec` yields status `"resolved"` and the cve is in the working
ignore list, the step sets the `resolved` flag, removes the cve and logs
the resolution warning. -/
lemma processCve_resolvedHit {st : CheckState} {cve dist : String}
    {rec : Record} (pkg : String) (hmem : cve ∈ st.ignored)
    (hst : statusOf dist rec = some "resolved") :
    processCve dist pkg st cve rec =
      { resolved := true, ignored := st.ignored.erase cve,
        log := st.log ++ [.resolvedWarn cve] } := by
  cases hrel : rec.releases with
  | none => simp [statusOf, hrel] at hst
  | some rels =>
    cases hlk : rels.lookup dist with
    | none => simp [statusOf, hrel, hlk] at hst
    | some rel =>
      simp only [statusOf, hrel, hlk] at hst
      simp [processCve, hmem, hrel, hlk, hst]

/-- When `rec` yields a status other than `"resolved"` and the cve is in
the working ignore list, the step removes the cve and logs the debug
line, leaving the `resolved` flag as it was. -/
lemma processCve_openHit {st : CheckState} {cve dist s : String}
    {rec : Record} (pkg : String) (hmem : cve ∈ st.ignored)
    (hst : statusOf dist rec = some s) (hne : s ≠ "resolved") :
    processCve dist pkg st cve rec =
      { resolved := st.resolved, ignored := st.ignored.erase cve,
        log := st.log ++ [.foundNotResolved cve] } := by
  cases hrel : rec.releases with
  | none => simp [statusOf, hrel] at hst
  | some rels =>
    cases hlk : rels.lookup dist with
    | none => simp [statusOf, hrel, hlk] at hst
    | some rel =>
      simp only [statusOf, hrel, hlk] at hst
      simp [processCve, hmem, hrel, hlk, hst, hne]

/-- The working ignore list never grows across a step. -/
lemma processCve_ignored_sub (dist pkg : String) (st : CheckState)
    (cve : String) (rec : Record) :
    (processCve dist pkg st cve rec).ignored ⊆ st.ignored := by
  unfold processCve
  split
  · split
    · simp
    · split
      · simp
      · split
        · simp
        · split <;> exact List.erase_subset ..
  · exact fun a h => h

/-- The log only grows across a step. -/
lemma processCve_log_mono {e : LogEntry} (dist pkg : String)
    (st : CheckState) (cve : String) (rec : Record) (h : e ∈ st.log) :
    e ∈ (processCve dist pkg st cve rec).log := by
  unfold processCve
  split
  · split
    · simpa using Or.inl h
    · split
      · simpa using Or.inl h
      · split
        · simpa using Or.inl h
        · split <;> simpa using Or.inl h
  · exact h

/-- A `true` `resolved` flag stays `true` across a step. -/
lemma processCve_resolved_mono (dist pkg : String) (st : CheckState)
    (cve : String) (rec : Record) (h : st.resolved = true) :
    (processCve dist pkg st cve rec).resolved = true := by
  unfold processCve
  split
  · split
    · simpa using h
    · split
      · simpa using h
      · split
        · simpa using h
        · split
          · rfl
          · simpa using h
  · exact h

/-- A step on a different cve neither moves `cve` in or out of the
working ignore list nor adds or removes any log line about `cve`. -/
lemma processCve_other {st : CheckState} {c cve : String}
    (dist pkg : String) (rec : Record) (hne : c ≠ cve) :
    (cve ∈ (processCve dist pkg st c rec).ignored ↔ cve ∈ st.ignored) ∧
    (.resolvedWarn cve ∈ (processCve dist pkg st c rec).log ↔
      .resolvedWarn cve ∈ st.log) ∧
    (.foundNotResolved cve ∈ (processCve dist pkg st c rec).log ↔
      .foundNotResolved cve ∈ st.log) ∧
    (.statusNotFound cve ∈ (processCve dist pkg st c rec).log ↔
      .statusNotFound cve ∈ st.log) := by
  have hne' : cve ≠ c := Ne.symm hne
  unfold processCve
  split
  · split
    · simp [hne']
    · split
      · simp
      · split
        · simp [hne']
        · split <;> simp [List.mem_erase_of_ne hne', hne']
  · simp

/-! ### Lemmas about the classification loop -/

lemma foldOccs_nil (dist : String) (st : CheckState) :
    foldOccs dist st [] = st := rfl

lemma foldOccs_cons (dist : String) (st : CheckState)
    (o : String × String × Record) (occs : List (String × String × Record)) :
    foldOccs dist st (o :: occs) =
      foldOccs dist (processCve dist o.1 st o.2.1 o.2.2) occs := rfl

/-- The nested loops of `classify` equal the single loop over the
flattened occurrence list. -/
lemma classify_eq_foldOccs (dist : String) (ds : Dataset) (st : CheckState) :
    classify dist ds st = foldOccs dist st (occsOf ds) := by
  induction ds generalizing st with
  | nil => rfl
  | cons p ds ih =>
    simp only [classify, occsOf, List.flatMap_cons, List.foldl_cons] at *
    rw [foldOccs, List.foldl_append, List.foldl_map]
    exact ih _

/-- A `true` `resolved` flag survives the rest of the loop. -/
lemma foldOccs_resolved_mono {dist : String} {st : CheckState}
    {occs : List (String × String × Record)} (h : st.resolved = true) :
    (foldOccs dist st occs).resolved = true := by
  induction occs generalizing st with
  | nil => exact h
  | cons o occs ih =>
    rw [foldOccs_cons]
    exact ih (processCve_resolved_mono _ _ _ _ _ h)

/-- Log lines are never removed by the rest of the loop. -/
lemma foldOccs_log_mono {dist : String} {st : CheckState} {e : LogEntry}
    {occs : List (String × String × Record)} (h : e ∈ st.log) :
    e ∈ (foldOccs dist st occs).log := by
  induction occs generalizing st with
  | nil => exact h
  | cons o occs ih =>
    rw [foldOccs_cons]
    exact ih (processCve_log_mono _ _ _ _ _ h)

/-- The working ignore list never grows during the loop. -/
lemma foldOccs_ignored_sub (dist : String) (st : CheckState)
    (occs : List (String × String × Record)) :
    (foldOccs dist st occs).ignored ⊆ st.ignored := by
  induction occs generalizing st with
  | nil => exact fun a h => h
  | cons o occs ih =>
    rw [foldOccs_cons]
    exact (ih _).trans (processCve_ignored_sub _ _ _ _ _)

/-- A cve stays in the working ignore list through the loop as long as no
occurrence of it in the remaining list yields a status value. -/
lemma foldOccs_mem_stay {dist cve : String} {st : CheckState}
    {occs : List (String × String × Record)}
    (hall : ∀ o ∈ occs, o.2.1 = cve → statusOf dist o.2.2 = none)
    (hmem : cve ∈ st.ignored) :
    cve ∈ (foldOccs dist st occs).ignored := by
  induction occs generalizing st with
  | nil => exact hmem
  | cons o occs ih =>
    rw [foldOccs_cons]
    refine ih (fun o' ho' => hall o' (List.mem_cons_of_mem _ ho')) ?_
    by_cases hc : o.2.1 = cve
    · have hst := hall o (List.mem_cons_self _ _) hc
      rw [(processCve_statusNone o.1 hst).2.1]
      exact hmem
    · exact ((processCve_other dist o.1 o.2.2 hc).1).mpr hmem

/-- Once a cve is out of the working ignore list, the rest of the loop
never classifies it again: it stays out, and no log line about it is
added. -/
lemma foldOccs_skip {dist cve : String} {st : CheckState}
    {occs : List (String × String × Record)} (h : cve ∉ st.ignored) :
    cve ∉ (foldOccs dist st occs).ignored ∧
    (.resolvedWarn cve ∈ (foldOccs dist st occs).log ↔
      .resolvedWarn cve ∈ st.log) ∧
    (.foundNotResolved cve ∈ (foldOccs dist st occs).log ↔
      .foundNotResolved cve ∈ st.log) ∧
    (.statusNotFound cve ∈ (foldOccs dist st occs).log ↔
      .statusNotFound cve ∈ st.log) := by
  induction occs generalizing st with
  | nil => exact ⟨h, Iff.rfl, Iff.rfl, Iff.rfl⟩
  | cons o occs ih =>
    rw [foldOccs_cons]
    by_cases hc : o.2.1 = cve
    · rw [hc, processCve_not_mem _ _ _ h]
      exact ih h
    · have hstep := @processCve_other st o.2.1 cve dist o.1 o.2.2 hc
      have h' : cve ∉ (processCve dist o.1 st o.2.1 o.2.2).ignored :=
        fun hx => h (hstep.1.mp hx)
      obtain ⟨h1, h2, h3, h4⟩ := ih h'
      exact ⟨h1, h2.trans hstep.2.1, h3.trans hstep.2.2.1,
        h4.trans hstep.2.2.2⟩

/-- The loop preserves the no-duplicates property of the working ignore
list. -/
lemma foldOccs_nodup (dist : String) (st : CheckState)
    (occs : List (String × String × Record)) (h : st.ignored.Nodup) :
    (foldOccs dist st occs).ignored.Nodup := by
  induction occs generalizing st with
  | nil => exact h
  | cons o occs ih =>
    rw [foldOccs_cons]
    exact ih _ (processCve_nodup _ _ _ _ _ h)

/-- If a tracked cve has a `"resolved"` occurrence in the remaining list
and none of its occurrences there carries any other status value, the
loop sets the `resolved` flag and logs the resolution warning. -/
lemma foldOccs_resolved_found {dist cve : String} {st : CheckState}
    {occs : List (String × String × Record)}
    (hmem : cve ∈ st.ignored)
    (hex : ∃ o ∈ occs, o.2.1 = cve ∧ statusOf dist o.2.2 = some "resolved")
    (hall : ∀ o ∈ occs, o.2.1 = cve →
      statusOf dist o.2.2 = none ∨ statusOf dist o.2.2 = some "resolved") :
    (foldOccs dist st occs).resolved = true ∧
    LogEntry.resolvedWarn cve ∈ (foldOccs dist st occs).log := by
  induction occs generalizing st with
  | nil => simp at hex
  | cons o occs ih =>
    rw [foldOccs_cons]
    obtain ⟨o', ho', hcve', hsto'⟩ := hex
    rcases List.mem_cons.mp ho' with heq | ho'
    · subst heq
      have hmem2 : o'.2.1 ∈ st.ignored := by rw [hcve']; exact hmem
      rw [processCve_resolvedHit o'.1 hmem2 hsto']
      refine ⟨foldOccs_resolved_mono rfl, foldOccs_log_mono ?_⟩
      simp [hcve']
    · by_cases hc : o.2.1 = cve
      · rcases hall o (List.mem_cons_self _ _) hc with hnone | hres
        · obtain ⟨_, hign', _⟩ :=
            @processCve_statusNone st o.2.1 dist o.2.2 o.1 hnone
          refine ih ?_ ⟨o', ho', hcve', hsto'⟩
            (fun x hx h => hall x (List.mem_cons_of_mem _ hx) h)
          rw [hign']; exact hmem
        · have hmem2 : o.2.1 ∈ st.ignored := by rw [hc]; exact hmem
          rw [processCve_resolvedHit o.1 hmem2 hres]
          refine ⟨foldOccs_resolved_mono rfl, foldOccs_log_mono ?_⟩
          simp [hc]
      · have hstep := @processCve_other st o.2.1 cve dist o.1 o.2.2 hc
        exact ih (hstep.1.mpr hmem) ⟨o', ho', hcve', hsto'⟩
          (fun x hx h => hall x (List.mem_cons_of_mem _ hx) h)

/-- If a tracked cve has an occurrence in the remaining list whose step
only appends a fixed note, and none of its occurrences there carries a
status value, the note ends up in the loop's log. -/
lemma foldOccs_note {dist cve pkg : String} {rec : Record} {e : LogEntry}
    {st : CheckState} {occs : List (String × String × Record)}
    (hocc : (pkg, cve, rec) ∈ occs)
    (hstep : ∀ st' : CheckState, cve ∈ st'.ignored →
      processCve dist pkg st' cve rec = { st' with log := st'.log ++ [e] })
    (hall : ∀ o ∈ occs, o.2.1 = cve → statusOf dist o.2.2 = none)
    (hmem : cve ∈ st.ignored) :
    e ∈ (foldOccs dist st occs).log := by
  induction occs generalizing st with
  | nil => simp at hocc
  | cons o occs ih =>
    rw [foldOccs_cons]
    rcases List.mem_cons.mp hocc with heq | hocc'
    · rw [← heq]
      show e ∈ (foldOccs dist (processCve dist pkg st cve rec) occs).log
      rw [hstep st hmem]
      exact foldOccs_log_mono (by simp)
    · by_cases hc : o.2.1 = cve
      · have hnone := hall o (List.mem_cons_self _ _) hc
        obtain ⟨_, hign', _⟩ :=
          @processCve_statusNone st o.2.1 dist o.2.2 o.1 hnone
        refine ih hocc'
          (fun x hx h => hall x (List.mem_cons_of_mem _ hx) h) ?_
        rw [hign']; exact hmem
      · have hstep' := @processCve_other st o.2.1 cve dist o.1 o.2.2 hc
        exact ih hocc'
          (fun x hx h => hall x (List.mem_cons_of_mem _ hx) h)
          (hstep'.1.mpr hmem)

/-- One step preserves the three-state invariant for any tracked cve. -/
lemma processCve_triState {dist pkg c cve : String} {rec : Record}
    {st : CheckState} (hnd : st.ignored.Nodup) (h : triState cve st) :
    triState cve (processCve dist pkg st c rec) := by
  by_cases hc : c = cve
  · subst hc
    rcases h with ⟨h1, h2, h3⟩ | ⟨h1, h2, h3⟩ | ⟨h1, h2, h3⟩
    · cases hst : statusOf dist rec with
      | none =>
        obtain ⟨_, hig, t, hlog, ht⟩ :=
          @processCve_statusNone st c dist rec pkg hst
        left
        refine ⟨by rw [hig]; exact h1, ?_, ?_⟩
        · rw [hlog]
          intro hx
          rcases List.mem_append.mp hx with hx | hx
          · exact h2 hx
          · rcases ht _ hx with h' | h' <;> simp at h'
        · rw [hlog]
          intro hx
          rcases List.mem_append.mp hx with hx | hx
          · exact h3 hx
          · rcases ht _ hx with h' | h' <;> simp at h'
      | some s =>
        by_cases hres : s = "resolved"
        · subst hres
          rw [processCve_resolvedHit pkg h1 hst]
          right; left
          refine ⟨?_, by simp, ?_⟩
          · intro hx
            exact ((List.Nodup.mem_erase_iff hnd).mp hx).1 rfl
          · intro hx
            rcases List.mem_append.mp hx with hx | hx
            · exact h3 hx
            · simp at hx
        · rw [processCve_openHit pkg h1 hst hres]
          right; right
          refine ⟨?_, ?_, by simp⟩
          · intro hx
            exact ((List.Nodup.mem_erase_iff hnd).mp hx).1 rfl
          · intro hx
            rcases List.mem_append.mp hx with hx | hx
            · exact h2 hx
            · simp at hx
    · rw [processCve_not_mem _ _ _ h1]
      right; left; exact ⟨h1, h2, h3⟩
    · rw [processCve_not_mem _ _ _ h1]
      right; right; exact ⟨h1, h2, h3⟩
  · have hstep := @processCve_other st c cve dist pkg rec hc
    rcases h with ⟨h1, h2, h3⟩ | ⟨h1, h2, h3⟩ | ⟨h1, h2, h3⟩
    · exact Or.inl ⟨hstep.1.mpr h1, fun hx => h2 (hstep.2.1.mp hx),
        fun hx => h3 (hstep.2.2.1.mp hx)⟩
    · exact Or.inr (Or.inl ⟨fun hx => h1 (hstep.1.mp hx),
        hstep.2.1.mpr h2, fun hx => h3 (hstep.2.2.1.mp hx)⟩)
    · exact Or.inr (Or.inr ⟨fun hx => h1 (hstep.1.mp hx),
        fun hx => h2 (hstep.2.1.mp hx), hstep.2.2.1.mpr h3⟩)

/-- The loop preserves the three-state invariant for any tracked cve. -/
lemma foldOccs_triState {dist cve : String} {st : CheckState}
    {occs : List (String × String × Record)} (hnd : st.ignored.Nodup)
    (h : triState cve st) : triState cve (foldOccs dist st occs) := by
  induction occs generalizing st with
  | nil => exact h
  | cons o occs ih =>
    rw [foldOccs_cons]
    exact ih (processCve_nodup _ _ _ _ _ hnd) (processCve_triState hnd h)

/-! ### Lemmas about the ignore-list reader -/

/-- Membership after one reader iteration. -/
lemma rtfStep_mem (acc : List String) (line x : String) :
    x ∈ rtfStep acc line ↔
      x ∈ acc ∨ (pyStrip line = x ∧
        pyStartsWith (pyStrip line) "CVE" = true) := by
  by_cases h1 : pyStartsWith (pyStrip line) "CVE" = true
  · by_cases h2 : pyStrip line ∈ acc
    · rw [rtfStep, if_neg (not_not_intro h1), if_pos h2]
      constructor
      · exact Or.inl
      · rintro (hx | ⟨rfl, _⟩)
        · exact hx
        · exact h2
    · rw [rtfStep, if_neg (not_not_intro h1), if_neg h2]
      simp [h1, eq_comm]
  · rw [rtfStep, if_pos h1]
    simp [h1]

/-- Membership in the reader's output from any accumulator. -/
lemma foldl_rtfStep_mem (lines : List String) (acc : List String)
    (x : String) :
    x ∈ lines.foldl rtfStep acc ↔
      x ∈ acc ∨ ((∃ l ∈ lines, pyStrip l = x) ∧
        pyStartsWith x "CVE" = true) := by
  induction lines generalizing acc with
  | nil => simp
  | cons line lines ih =>
    rw [List.foldl_cons, ih, rtfStep_mem]
    constructor
    · rintro ((hx | ⟨he, hs⟩) | ⟨⟨l, hl, he⟩, hs⟩)
      · exact Or.inl hx
      · exact Or.inr ⟨⟨line, List.mem_cons_self _ _, he⟩, he ▸ hs⟩
      · exact Or.inr ⟨⟨l, List.mem_cons_of_mem _ hl, he⟩, hs⟩
    · rintro (hx | ⟨⟨l, hl, he⟩, hs⟩)
      · exact Or.inl (Or.inl hx)
      · rcases List.mem_cons.mp hl with rfl | hl
        · exact Or.inl (Or.inr ⟨he, he ▸ hs⟩)
        · exact Or.inr ⟨⟨l, hl, he⟩, hs⟩

/-- One reader iteration preserves deduplication. -/
lemma rtfStep_nodup {acc : List String} (line : String)
    (h : acc.Nodup) : (rtfStep acc line).Nodup := by
  unfold rtfStep
  split
  · exact h
  · split
    · exact h
    · rename_i h2
      simp [List.nodup_append, h, h2]

/-- The reader's output is deduplicated from any deduplicated
accumulator. -/
lemma foldl_rtfStep_nodup (lines : List String) (acc : List String)
    (h : acc.Nodup) : (lines.foldl rtfStep acc).Nodup := by
  induction lines generalizing acc with
  | nil => exact h
  | cons l lines ih => exact ih _ (rtfStep_nodup l h)

/-! ### Reduction lemmas for `runMain` on a successful fetch -/

/-- A successful-fetch run whose loop set the `resolved` flag exits 1
with the loop's log. -/
lemma runMain_ok_resolved {lines : List String} {ds : Dataset}
    {dist : String} (h : (finalState lines ds dist).resolved = true) :
    runMain ⟨some lines, 200, ds, dist⟩ =
      { exitCode := 1, networkAttempted := true, printed := [],
        resolved := true,
        ignoredFinal := (finalState lines ds dist).ignored,
        log := (finalState lines ds dist).log } := by
  have h' : (classify dist ds (initState (read_trivy_filter lines))).resolved
      = true := h
  simp [runMain, retrieve_debian_data, finalState, h']

/-- A successful-fetch run with a clear flag but leftover entries logs
the remaining set and exits 1. -/
lemma runMain_ok_notFound {lines : List String} {ds : Dataset}
    {dist : String} (h : (finalState lines ds dist).resolved = false)
    (hne : (finalState lines ds dist).ignored ≠ []) :
    runMain ⟨some lines, 200, ds, dist⟩ =
      { exitCode := 1, networkAttempted := true, printed := [],
        resolved := false,
        ignoredFinal := (finalState lines ds dist).ignored,
        log := (finalState lines ds dist).log ++
          [.notFoundError (finalState lines ds dist).ignored] } := by
  have h' : (classify dist ds (initState (read_trivy_filter lines))).resolved
      = false := h
  have hne' : (classify dist ds (initState (read_trivy_filter lines))).ignored
      ≠ [] := hne
  simp [runMain, retrieve_debian_data, finalState, h', hne']

/-- A successful-fetch run with a clear flag and an emptied working list
exits 0. -/
lemma runMain_ok_success {lines : List String} {ds : Dataset}
    {dist : String} (h : (finalState lines ds dist).resolved = false)
    (hemp : (finalState lines ds dist).ignored = []) :
    runMain ⟨some lines, 200, ds, dist⟩ =
      { exitCode := 0, networkAttempted := true, printed := [],
        resolved := false, ignoredFinal := [],
        log := (finalState lines ds dist).log } := by
  have h' : (classify dist ds (initState (read_trivy_filter lines))).resolved
      = false := h
  have hemp' : (classify dist ds (initState (read_trivy_filter lines))).ignored
      = [] := hemp
  simp [runMain, retrieve_debian_data, finalState, h', hemp']

/-! ### The claims -/

/-- C1 (as stated, refuted): the claim says that whenever some ignored
identifier present in the dataset has status `"resolved"` for the target
distribution, the run warns and exits non-zero.  Here `CVE-1` has a
`"resolved"` status under package `p2`, yet an earlier `"open"`
occurrence under `p1` removes it from the working list first, so the
`p2` occurrence is skipped: the run exits 0 and never logs the
resolution warning. -/
theorem C1_counterexample :
    "CVE-1" ∈ read_trivy_filter exLines ∧
    ("p2", "CVE-1", recResolved) ∈ occsOf dsOpenThenResolved ∧
    statusOf "bullseye" recResolved = some "resolved" ∧
    (runMain ⟨some exLines, 200, dsOpenThenResolved, "bullseye"⟩).exitCode
      = 0 ∧
    LogEntry.resolvedWarn "CVE-1" ∉
      (runMain ⟨some exLines, 200, dsOpenThenResolved, "bullseye"⟩).log := by
  decide

/-- C1 (amended): for a run with a successfully fetched dataset, if some
ignored identifier present in the dataset has status `"resolved"` for
the target distribution at one of its occurrences, and no occurrence of
that identifier carries any other status for the target distribution,
then the run logs that identifier as resolved and exits non-zero. -/
theorem C1_resolved_found_fails (lines : List String) (ds : Dataset)
    (dist cve : String)
    (hmem : cve ∈ read_trivy_filter lines)
    (hex : ∃ o ∈ occsOf ds, o.2.1 = cve ∧
      statusOf dist o.2.2 = some "resolved")
    (hall : ∀ o ∈ occsOf ds, o.2.1 = cve →
      statusOf dist o.2.2 = none ∨ statusOf dist o.2.2 = some "resolved") :
    (runMain ⟨some lines, 200, ds, dist⟩).exitCode = 1 ∧
    LogEntry.resolvedWarn cve ∈ (runMain ⟨some lines, 200, ds, dist⟩).log := by
  have h := @foldOccs_resolved_found dist cve
    (initState (read_trivy_filter lines)) (occsOf ds) hmem hex hall
  have hres : (finalState lines ds dist).resolved = true := by
    rw [finalState, classify_eq_foldOccs]; exact h.1
  have hwarn : LogEntry.resolvedWarn cve ∈ (finalState lines ds dist).log := by
    rw [finalState, classify_eq_foldOccs]; exact h.2
  rw [runMain_ok_resolved hres]
  exact ⟨rfl, hwarn⟩

/-- Witness for C1 (amended) at a dataset whose only `CVE-1` occurrence
is `"resolved"`. -/
theorem C1_witness :
    "CVE-1" ∈ read_trivy_filter exLines ∧
    (∃ o ∈ occsOf dsResolved, o.2.1 = "CVE-1" ∧
      statusOf "bullseye" o.2.2 = some "resolved") ∧
    ((runMain ⟨some exLines, 200, dsResolved, "bullseye"⟩).exitCode = 1 ∧
     LogEntry.resolvedWarn "CVE-1" ∈
       (runMain ⟨some exLines, 200, dsResolved, "bullseye"⟩).log) :=
  ⟨by decide, by decide,
    C1_resolved_found_fails exLines dsResolved "bullseye" "CVE-1"
      (by decide) (by decide) (by decide)⟩

/-- C2: for a run with a successfully fetched dataset, if the loop ends
with the `resolved` flag clear and an empty working ignore list (every
entry matched with a non-resolved status), the run exits 0. -/
theorem C2_clean_run_succeeds (lines : List String) (ds : Dataset)
    (dist : String)
    (hres : (finalState lines ds dist).resolved = false)
    (hemp : (finalState lines ds dist).ignored = []) :
    (runMain ⟨some lines, 200, ds, dist⟩).exitCode = 0 := by
  rw [runMain_ok_success hres hemp]

/-- Witness for C2 at a dataset whose only `CVE-1` occurrence is
`"open"`. -/
theorem C2_witness :
    (finalState exLines dsOpen "bullseye").resolved = false ∧
    (finalState exLines dsOpen "bullseye").ignored = [] ∧
    (runMain ⟨some exLines, 200, dsOpen, "bullseye"⟩).exitCode = 0 :=
  ⟨by decide, by decide,
    C2_clean_run_succeeds exLines dsOpen "bullseye" (by decide) (by decide)⟩

/-- C3: a tracked identifier found in the dataset whose record has a
`releases` map without the target distribution gets the informational
note and is not removed, so (no occurrence of it yielding any status) it
stays in the working list, the run exits 1, and — absent resolved
findings — it is reported in the "not found" set. -/
theorem C3_dist_absent_unmatched (lines : List String) (ds : Dataset)
    (dist cve pkg : String) (rec : Record) (rels : List (String × Release))
    (hmem : cve ∈ read_trivy_filter lines)
    (hocc : (pkg, cve, rec) ∈ occsOf ds)
    (hrel : rec.releases = some rels)
    (hlk : rels.lookup dist = none)
    (hall : ∀ o ∈ occsOf ds, o.2.1 = cve → statusOf dist o.2.2 = none) :
    LogEntry.distNotIn dist pkg ∈
      (runMain ⟨some lines, 200, ds, dist⟩).log ∧
    cve ∈ (runMain ⟨some lines, 200, ds, dist⟩).ignoredFinal ∧
    (runMain ⟨some lines, 200, ds, dist⟩).exitCode = 1 ∧
    ((runMain ⟨some lines, 200, ds, dist⟩).resolved = false →
      ∃ l, LogEntry.notFoundError l ∈
        (runMain ⟨some lines, 200, ds, dist⟩).log ∧ cve ∈ l) := by
  have hstay : cve ∈ (finalState lines ds dist).ignored := by
    rw [finalState, classify_eq_foldOccs]
    exact foldOccs_mem_stay hall hmem
  have hnote : LogEntry.distNotIn dist pkg ∈ (finalState lines ds dist).log := by
    rw [finalState, classify_eq_foldOccs]
    exact foldOccs_note hocc
      (fun st' hm => processCve_distAbsent pkg hm hrel hlk) hall hmem
  have hne : (finalState lines ds dist).ignored ≠ [] := by
    intro h0; rw [h0] at hstay; exact (List.not_mem_nil cve) hstay
  cases hres : (finalState lines ds dist).resolved with
  | false =>
    rw [runMain_ok_notFound hres hne]
    refine ⟨List.mem_append_left _ hnote, hstay, rfl,
      fun _ => ⟨(finalState lines ds dist).ignored, ?_, hstay⟩⟩
    exact List.mem_append_right _ (List.mem_singleton_self _)
  | true =>
    rw [runMain_ok_resolved hres]
    exact ⟨hnote, hstay, rfl, fun hfalse => by simp at hfalse⟩

/-- Witness for C3 at a dataset whose only `CVE-1` record lacks
`bullseye`. -/
theorem C3_witness :
    "CVE-1" ∈ read_trivy_filter exLines ∧
    ("p1", "CVE-1", recNoDist) ∈ occsOf dsNoDist ∧
    (LogEntry.distNotIn "bullseye" "p1" ∈
      (runMain ⟨some exLines, 200, dsNoDist, "bullseye"⟩).log ∧
     "CVE-1" ∈ (runMain ⟨some exLines, 200, dsNoDist, "bullseye"⟩).ignoredFinal ∧
     (runMain ⟨some exLines, 200, dsNoDist, "bullseye"⟩).exitCode = 1 ∧
     ((runMain ⟨some exLines, 200, dsNoDist, "bullseye"⟩).resolved = false →
       ∃ l, LogEntry.notFoundError l ∈
         (runMain ⟨some exLines, 200, dsNoDist, "bullseye"⟩).log ∧
         "CVE-1" ∈ l)) :=
  ⟨by decide, by decide,
    C3_dist_absent_unmatched exLines dsNoDist "bullseye" "CVE-1" "p1"
      recNoDist [("buster", ⟨some "open"⟩)]
      (by decide) (by decide) (by decide) (by decide) (by decide)⟩

/-- C4: a non-200 response makes the run print a failure message naming
the remote authority's address and exit 1 immediately: no log line is
emitted and the working ignore list is exactly what the reader
produced. -/
theorem C4_fetch_failure (lines : List String) (ds : Dataset)
    (dist : String) (respStatus : Nat) (h : respStatus ≠ 200) :
    (runMain ⟨some lines, respStatus, ds, dist⟩).exitCode = 1 ∧
    (runMain ⟨some lines, respStatus, ds, dist⟩).printed =
      ["Error while retrieving the data from " ++ DEBIAN_URL] ∧
    (runMain ⟨some lines, respStatus, ds, dist⟩).log = [] ∧
    (runMain ⟨some lines, respStatus, ds, dist⟩).ignoredFinal =
      read_trivy_filter lines ∧
    (runMain ⟨some lines, respStatus, ds, dist⟩).resolved = false := by
  refine ⟨?_, ?_, ?_, ?_, ?_⟩ <;> simp [runMain, retrieve_debian_data, h]

/-- Witness for C4 at response status 500. -/
theorem C4_witness :
    (500 : Nat) ≠ 200 ∧
    ((runMain ⟨some exLines, 500, dsOpen, "bullseye"⟩).exitCode = 1 ∧
     (runMain ⟨some exLines, 500, dsOpen, "bullseye"⟩).printed =
       ["Error while retrieving the data from " ++ DEBIAN_URL] ∧
     (runMain ⟨some exLines, 500, dsOpen, "bullseye"⟩).log = [] ∧
     (runMain ⟨some exLines, 500, dsOpen, "bullseye"⟩).ignoredFinal =
       read_trivy_filter exLines ∧
     (runMain ⟨some exLines, 500, dsOpen, "bullseye"⟩).resolved = false) :=
  ⟨by decide, C4_fetch_failure exLines dsOpen "bullseye" 500 (by decide)⟩

/-- C5: the reader produces exactly the stripped lines starting with
`"CVE"`, without duplicates; a line whose stripped form is already
present leaves the accumulator unchanged (first occurrence wins). -/
theorem C5_reader_contract (lines : List String) :
    (read_trivy_filter lines).Nodup ∧
    (∀ x, x ∈ read_trivy_filter lines ↔
      (∃ l ∈ lines, pyStrip l = x) ∧ pyStartsWith x "CVE" = true) ∧
    (∀ acc line, pyStrip line ∈ acc → rtfStep acc line = acc) := by
  refine ⟨foldl_rtfStep_nodup lines [] List.nodup_nil, ?_, ?_⟩
  · intro x
    rw [read_trivy_filter, foldl_rtfStep_mem]
    simp
  · intro acc line h
    by_cases h1 : pyStartsWith (pyStrip line) "CVE" = true
    · rw [rtfStep, if_neg (not_not_intro h1), if_pos h]
    · rw [rtfStep, if_pos h1]

/-- C6: a tracked identifier whose release entry for the target
distribution lacks the `status` field gets the "status not found"
warning and is not removed, so (no occurrence of it yielding any status)
it stays in the working list and the run exits 1. -/
theorem C6_status_missing_unmatched (lines : List String) (ds : Dataset)
    (dist cve pkg : String) (rec : Record) (rels : List (String × Release))
    (rel : Release)
    (hmem : cve ∈ read_trivy_filter lines)
    (hocc : (pkg, cve, rec) ∈ occsOf ds)
    (hrel : rec.releases = some rels)
    (hlk : rels.lookup dist = some rel)
    (hs : rel.status = none)
    (hall : ∀ o ∈ occsOf ds, o.2.1 = cve → statusOf dist o.2.2 = none) :
    LogEntry.statusNotFound cve ∈
      (runMain ⟨some lines, 200, ds, dist⟩).log ∧
    cve ∈ (runMain ⟨some lines, 200, ds, dist⟩).ignoredFinal ∧
    (runMain ⟨some lines, 200, ds, dist⟩).exitCode = 1 := by
  have hstay : cve ∈ (finalState lines ds dist).ignored := by
    rw [finalState, classify_eq_foldOccs]
    exact foldOccs_mem_stay hall hmem
  have hnote : LogEntry.statusNotFound cve ∈ (finalState lines ds dist).log := by
    rw [finalState, classify_eq_foldOccs]
    exact foldOccs_note hocc
      (fun st' hm => processCve_statusMissing pkg hm hrel hlk hs) hall hmem
  have hne : (finalState lines ds dist).ignored ≠ [] := by
    intro h0; rw [h0] at hstay; exact (List.not_mem_nil cve) hstay
  cases hres : (finalState lines ds dist).resolved with
  | false =>
    rw [runMain_ok_notFound hres hne]
    exact ⟨List.mem_append_left _ hnote, hstay, rfl⟩
  | true =>
    rw [runMain_ok_resolved hres]
    exact ⟨hnote, hstay, rfl⟩

/-- Witness for C6 at a dataset whose only `CVE-1` release entry lacks
the `status` field. -/
theorem C6_witness :
    "CVE-1" ∈ read_trivy_filter exLines ∧
    ("p1", "CVE-1", recNoStatus) ∈ occsOf dsNoStatus ∧
    (LogEntry.statusNotFound "CVE-1" ∈
      (runMain ⟨some exLines, 200, dsNoStatus, "bullseye"⟩).log ∧
     "CVE-1" ∈
       (runMain ⟨some exLines, 200, dsNoStatus, "bullseye"⟩).ignoredFinal ∧
     (runMain ⟨some exLines, 200, dsNoStatus, "bullseye"⟩).exitCode = 1) :=
  ⟨by decide, by decide,
    C6_status_missing_unmatched exLines dsNoStatus "bullseye" "CVE-1" "p1"
      recNoStatus [("bullseye", ⟨none⟩)] ⟨none⟩
      (by decide) (by decide) (by decide) (by decide) (by decide) (by decide)⟩

/-- C7: every ignore entry ends a successful-fetch run in exactly one of
three mutually exclusive states: never matched (still in the working
list), matched and still unresolved, or matched but resolved. -/
theorem C7_exactly_one_state (lines : List String) (ds : Dataset)
    (dist cve : String) (hmem : cve ∈ read_trivy_filter lines) :
    (neverMatched cve (runMain ⟨some lines, 200, ds, dist⟩).ignoredFinal
        (runMain ⟨some lines, 200, ds, dist⟩).log ∧
      ¬ matchedUnresolved cve
        (runMain ⟨some lines, 200, ds, dist⟩).ignoredFinal
        (runMain ⟨some lines, 200, ds, dist⟩).log ∧
      ¬ matchedResolved cve
        (runMain ⟨some lines, 200, ds, dist⟩).ignoredFinal
        (runMain ⟨some lines, 200, ds, dist⟩).log) ∨
    (¬ neverMatched cve (runMain ⟨some lines, 200, ds, dist⟩).ignoredFinal
        (runMain ⟨some lines, 200, ds, dist⟩).log ∧
      matchedUnresolved cve
        (runMain ⟨some lines, 200, ds, dist⟩).ignoredFinal
        (runMain ⟨some lines, 200, ds, dist⟩).log ∧
      ¬ matchedResolved cve
        (runMain ⟨some lines, 200, ds, dist⟩).ignoredFinal
        (runMain ⟨some lines, 200, ds, dist⟩).log) ∨
    (¬ neverMatched cve (runMain ⟨some lines, 200, ds, dist⟩).ignoredFinal
        (runMain ⟨some lines, 200, ds, dist⟩).log ∧
      ¬ matchedUnresolved cve
        (runMain ⟨some lines, 200, ds, dist⟩).ignoredFinal
        (runMain ⟨some lines, 200, ds, dist⟩).log ∧
      matchedResolved cve
        (runMain ⟨some lines, 200, ds, dist⟩).ignoredFinal
        (runMain ⟨some lines, 200, ds, dist⟩).log) := by
  have hnd : (read_trivy_filter lines).Nodup :=
    foldl_rtfStep_nodup lines [] List.nodup_nil
  have htri : triState cve (finalState lines ds dist) := by
    rw [finalState, classify_eq_foldOccs]
    exact foldOccs_triState hnd
      (Or.inl ⟨hmem, by simp [initState], by simp [initState]⟩)
  obtain ⟨hig, hwiff, hfiff⟩ :
      (runMain ⟨some lines, 200, ds, dist⟩).ignoredFinal =
        (finalState lines ds dist).ignored ∧
      (LogEntry.resolvedWarn cve ∈ (runMain ⟨some lines, 200, ds, dist⟩).log ↔
        LogEntry.resolvedWarn cve ∈ (finalState lines ds dist).log) ∧
      (LogEntry.foundNotResolved cve ∈
          (runMain ⟨some lines, 200, ds, dist⟩).log ↔
        LogEntry.foundNotResolved cve ∈ (finalState lines ds dist).log) := by
    cases hres : (finalState lines ds dist).resolved with
    | true => rw [runMain_ok_resolved hres]; exact ⟨rfl, Iff.rfl, Iff.rfl⟩
    | false =>
      by_cases hemp : (finalState lines ds dist).ignored = []
      · rw [runMain_ok_success hres hemp]; exact ⟨hemp.symm, Iff.rfl, Iff.rfl⟩
      · rw [runMain_ok_notFound hres hemp]
        refine ⟨rfl, ?_, ?_⟩ <;> simp
  simp only [neverMatched, matchedUnresolved, matchedResolved]
  rcases htri with ⟨h1, h2, h3⟩ | ⟨h1, h2, h3⟩ | ⟨h1, h2, h3⟩
  · left
    refine ⟨by rw [hig]; exact h1, ?_, ?_⟩
    · rintro ⟨hn, _⟩; rw [hig] at hn; exact hn h1
    · rintro ⟨hn, _⟩; rw [hig] at hn; exact hn h1
  · right; right
    refine ⟨?_, ?_, by rw [hig]; exact h1, hwiff.mpr h2⟩
    · intro hn; rw [hig] at hn; exact h1 hn
    · rintro ⟨_, hf⟩; exact h3 (hfiff.mp hf)
  · right; left
    refine ⟨?_, ⟨by rw [hig]; exact h1, hfiff.mpr h3⟩, ?_⟩
    · intro hn; rw [hig] at hn; exact h1 hn
    · rintro ⟨_, hw⟩; exact h2 (hwiff.mp hw)

/-- Witness for C7 at a dataset whose only `CVE-1` occurrence is
`"open"`. -/
theorem C7_witness :
    "CVE-1" ∈ read_trivy_filter exLines ∧
    ((neverMatched "CVE-1"
        (runMain ⟨some exLines, 200, dsOpen, "bullseye"⟩).ignoredFinal
        (runMain ⟨some exLines, 200, dsOpen, "bullseye"⟩).log ∧
      ¬ matchedUnresolved "CVE-1"
        (runMain ⟨some exLines, 200, dsOpen, "bullseye"⟩).ignoredFinal
        (runMain ⟨some exLines, 200, dsOpen, "bullseye"⟩).log ∧
      ¬ matchedResolved "CVE-1"
        (runMain ⟨some exLines, 200, dsOpen, "bullseye"⟩).ignoredFinal
        (runMain ⟨some exLines, 200, dsOpen, "bullseye"⟩).log) ∨
    (¬ neverMatched "CVE-1"
        (runMain ⟨some exLines, 200, dsOpen, "bullseye"⟩).ignoredFinal
        (runMain ⟨some exLines, 200, dsOpen, "bullseye"⟩).log ∧
      matchedUnresolved "CVE-1"
        (runMain ⟨some exLines, 200, dsOpen, "bullseye"⟩).ignoredFinal
        (runMain ⟨some exLines, 200, dsOpen, "bullseye"⟩).log ∧
      ¬ matchedResolved "CVE-1"
        (runMain ⟨some exLines, 200, dsOpen, "bullseye"⟩).ignoredFinal
        (runMain ⟨some exLines, 200, dsOpen, "bullseye"⟩).log) ∨
    (¬ neverMatched "CVE-1"
        (runMain ⟨some exLines, 200, dsOpen, "bullseye"⟩).ignoredFinal
        (runMain ⟨some exLines, 200, dsOpen, "bullseye"⟩).log ∧
      ¬ matchedUnresolved "CVE-1"
        (runMain ⟨some exLines, 200, dsOpen, "bullseye"⟩).ignoredFinal
        (runMain ⟨some exLines, 200, dsOpen, "bullseye"⟩).log ∧
      matchedResolved "CVE-1"
        (runMain ⟨some exLines, 200, dsOpen, "bullseye"⟩).ignoredFinal
        (runMain ⟨some exLines, 200, dsOpen, "bullseye"⟩).log)) :=
  ⟨by decide, C7_exactly_one_state exLines dsOpen "bullseye" "CVE-1" (by decide)⟩

/-- C8: a missing or unreadable ignore file makes the run fail with a
non-zero exit before any network activity: the request to the remote
authority is never issued. -/
theorem C8_file_error_no_network (respStatus : Nat) (ds : Dataset)
    (dist : String) :
    (runMain ⟨none, respStatus, ds, dist⟩).exitCode = 1 ∧
    (runMain ⟨none, respStatus, ds, dist⟩).networkAttempted = false := by
  exact ⟨rfl, rfl⟩

/-- C9: the run is a function of its inputs — two runs on equal inputs
produce the same exit status and the same classification outcome. -/
theorem C9_deterministic (inp₁ inp₂ : RunInput) (h : inp₁ = inp₂) :
    (runMain inp₁).exitCode = (runMain inp₂).exitCode ∧
    (runMain inp₁).resolved = (runMain inp₂).resolved ∧
    (runMain inp₁).ignoredFinal = (runMain inp₂).ignoredFinal ∧
    (runMain inp₁).log = (runMain inp₂).log := by
  subst h
  exact ⟨rfl, rfl, rfl, rfl⟩

/-- Witness for C9 at a concrete input. -/
theorem C9_witness :
    (⟨some exLines, 200, dsOpen, "bullseye"⟩ : RunInput) =
      ⟨some exLines, 200, dsOpen, "bullseye"⟩ ∧
    ((runMain ⟨some exLines, 200, dsOpen, "bullseye"⟩).exitCode =
      (runMain ⟨some exLines, 200, dsOpen, "bullseye"⟩).exitCode ∧
     (runMain ⟨some exLines, 200, dsOpen, "bullseye"⟩).resolved =
      (runMain ⟨some exLines, 200, dsOpen, "bullseye"⟩).resolved ∧
     (runMain ⟨some exLines, 200, dsOpen, "bullseye"⟩).ignoredFinal =
      (runMain ⟨some exLines, 200, dsOpen, "bullseye"⟩).ignoredFinal ∧
     (runMain ⟨some exLines, 200, dsOpen, "bullseye"⟩).log =
      (runMain ⟨some exLines, 200, dsOpen, "bullseye"⟩).log) :=
  ⟨rfl, C9_deterministic ⟨some exLines, 200, dsOpen, "bullseye"⟩
    ⟨some exLines, 200, dsOpen, "bullseye"⟩ rfl⟩

/-- C10 (as stated, refuted): the claim says a multi-package identifier
is classified at most once, the first dataset occurrence alone deciding
its outcome.  The two datasets below share the same first occurrence of
`CVE-1` (a `p1` record without the target distribution), yet produce
different exits; in the second, `CVE-1` is classified twice, logging
both the `p1` note and the `p2` resolution warning. -/
theorem C10_counterexample :
    (occsOf dsNoDistThenOpen).head? = (occsOf dsNoDistThenResolved).head? ∧
    "CVE-1" ∈ read_trivy_filter exLines ∧
    (runMain ⟨some exLines, 200, dsNoDistThenOpen, "bullseye"⟩).exitCode
      = 0 ∧
    (runMain ⟨some exLines, 200, dsNoDistThenResolved, "bullseye"⟩).exitCode
      = 1 ∧
    LogEntry.distNotIn "bullseye" "p1" ∈
      (runMain ⟨some exLines, 200, dsNoDistThenResolved, "bullseye"⟩).log ∧
    LogEntry.resolvedWarn "CVE-1" ∈
      (runMain ⟨some exLines, 200, dsNoDistThenResolved, "bullseye"⟩).log := by
  decide

/-- C10 (amended): once an identifier is out of the working ignore list,
the rest of the loop never classifies it again — it stays out and no log
line about it is added; an occurrence that leaves it in the list
(distribution absent or status missing) does not fix its outcome, which
is instead decided by the first occurrence carrying a status for the
target distribution while the identifier is still in the list. -/
theorem C10_removed_is_skipped (dist cve : String) (st : CheckState)
    (occs : List (String × String × Record)) (h : cve ∉ st.ignored) :
    cve ∉ (foldOccs dist st occs).ignored ∧
    (LogEntry.resolvedWarn cve ∈ (foldOccs dist st occs).log ↔
      LogEntry.resolvedWarn cve ∈ st.log) ∧
    (LogEntry.foundNotResolved cve ∈ (foldOccs dist st occs).log ↔
      LogEntry.foundNotResolved cve ∈ st.log) ∧
    (LogEntry.statusNotFound cve ∈ (foldOccs dist st occs).log ↔
      LogEntry.statusNotFound cve ∈ st.log) :=
  foldOccs_skip h

/-- Witness for C10 (amended) starting from an empty working list. -/
theorem C10_witness :
    "CVE-1" ∉ (initState []).ignored ∧
    ("CVE-1" ∉
      (foldOccs "bullseye" (initState []) (occsOf dsOpen)).ignored ∧
     (LogEntry.resolvedWarn "CVE-1" ∈
        (foldOccs "bullseye" (initState []) (occsOf dsOpen)).log ↔
      LogEntry.resolvedWarn "CVE-1" ∈ (initState []).log) ∧
     (LogEntry.foundNotResolved "CVE-1" ∈
        (foldOccs "bullseye" (initState []) (occsOf dsOpen)).log ↔
      LogEntry.foundNotResolved "CVE-1" ∈ (initState []).log) ∧
     (LogEntry.statusNotFound "CVE-1" ∈
        (foldOccs "bullseye" (initState []) (occsOf dsOpen)).log ↔
      LogEntry.statusNotFound "CVE-1" ∈ (initState []).log)) :=
  ⟨by decide,
    C10_removed_is_skipped "bullseye" "CVE-1" (initState [])
      (occsOf dsOpen) (by decide)⟩

end CheckTrivy
